import Mathlib

/-!
Verification of the sentiment-analysis metered proxy
(`src/server/app-sentiment.js`, balance service, balance models).

Shallow embedding conventions:
* JavaScript numbers are modelled as rationals (`ℚ`); `Number.toFixed(6)`
  followed by `parseFloat` is modelled as exact rounding to 6 decimal places
  (`round6`).  Binary floating point rounding is not modelled.
* JavaScript falsy-string checks (`if (!text)`) are modelled on
  `Option String`: `none` (absent field) and `some ""` are falsy.
* Asynchronous code is embedded sequentially: `await e1; e2` becomes
  sequential composition.  An effect a handler `await`s is therefore part of
  the handler's synchronous outcome (recorded in `analyticsAttempted`);
  a genuinely detached (fire-and-forget) task would not appear there.
* The MD5 digest used for cache keys is an external crypto primitive; the
  embedding abstracts it as a function parameter `md5hex : String → String`.
* `JSON.parse` of the upstream response body is modelled by its outcome
  (`ParseOutcome`): either a thrown syntax error or a parsed value whose
  fields may individually be absent (JavaScript `undefined`), since the
  upstream model is free to return any JSON shape.
* Mongoose persistence always succeeds in the model (storage errors are not
  modelled); `Date.now()` is a `Nat` parameter threaded as `now`.
-/

/-- `money` and scores are rationals (idealised JS numbers). -/
abbrev Money := ℚ

/-- Rounding to 6 decimal places, the model of `parseFloat(x.toFixed(6))`. -/
def round6 (x : ℚ) : ℚ := (round (x * 1000000) : ℤ) / 1000000

/-- `DEFAULT_MODEL` from app-sentiment.js line 99. -/
def DEFAULT_MODEL : String := "gpt-3.5-turbo-0125"

/-- The `tokenPricing` table (app-sentiment.js lines 91-96) combined with the
`tokenPricing[model] || tokenPricing[DEFAULT_MODEL]` fallback used at every
access site.  Returns (input rate, output rate) per 1000 tokens. -/
def modelPricing (model : String) : ℚ × ℚ :=
  if model = "gpt-3.5-turbo-0125" then (0.0005, 0.0015)
  else if model = "gpt-4-turbo" then (0.01, 0.03)
  else if model = "gpt-4" then (0.03, 0.06)
  else if model = "gpt-3.5-turbo" then (0.0005, 0.0015)
  else (0.0005, 0.0015)

/-- Token usage object returned by the upstream API (`response.data.usage`). -/
structure Usage where
  prompt_tokens : Nat
  completion_tokens : Nat
  total_tokens : Nat
deriving DecidableEq, Repr

/-- The cost object produced by `calculateCost` (app-sentiment.js 1339-1358). -/
structure CostBreakdown where
  inputCost : ℚ
  outputCost : ℚ
  totalCost : ℚ
  inputPrice : ℚ
  outputPrice : ℚ
  totalPrice : ℚ
  currency : String
deriving DecidableEq, Repr

/-- `calculateCost(usage, model)` (app-sentiment.js 1339-1358). -/
def calculateCost (usage : Usage) (model : String) : CostBreakdown :=
  let pr := modelPricing model
  let inputCost : ℚ := ((usage.prompt_tokens : ℚ) / 1000) * pr.1
  let outputCost : ℚ := ((usage.completion_tokens : ℚ) / 1000) * pr.2
  let totalCost : ℚ := inputCost + outputCost
  let inputPrice : ℚ := inputCost * 0.25 + inputCost
  let outputPrice : ℚ := outputCost * 0.25 + outputCost
  let totalPrice : ℚ := inputPrice + outputPrice
  { inputCost := round6 inputCost
    outputCost := round6 outputCost
    totalCost := round6 totalCost
    inputPrice := round6 inputPrice
    outputPrice := round6 outputPrice
    totalPrice := round6 totalPrice
    currency := "USD" }

/-- `{score, sentiment}` sub-object of a parsed classification. -/
structure Sentiment where
  score : ℚ
  sentiment : String
deriving DecidableEq, Repr

/-- `{score, words}` profanity sub-object of a parsed classification. -/
structure Profanity where
  score : ℚ
  words : List String
deriving DecidableEq, Repr

/-- The value produced by `JSON.parse` of the upstream message content.
Each field is `Option` because the upstream JSON may omit it (the JS value
is then `undefined`). -/
structure ParsedResult where
  language : Option String
  sentiment : Option Sentiment
  profanity : Option Profanity
  intents : Option (List String)
deriving DecidableEq, Repr

/-- `determineTTL(result)` (app-sentiment.js 1316-1336).  `defaultTTL`
models `process.env.CACHE_TTL || 86400`.  Returns `none` when the JS code
throws a `TypeError`: `result.intents.includes(...)` with `intents`
undefined, or `result.sentiment.sentiment` with `sentiment` undefined. -/
def determineTTL (defaultTTL : Nat) (result : ParsedResult) : Option Nat :=
  match result.intents with
  | none => none
  | some intents =>
    if intents.contains "news" || intents.contains "current_events" then
      some 3600
    else if intents.contains "factual" || intents.contains "reference" then
      some 604800
    else
      match result.sentiment with
      | none => none
      | some s =>
        if s.sentiment = "negative" && s.score < -0.5 then some 43200
        else some defaultTTL

/-! ## Balance Ledger (src/server/models/balance.js, BalanceService part_001) -/

/-- One `HostBalance` document (models/balance.js 4-35).  `lastUpdated` is a
`Nat` timestamp. -/
structure HostBalance where
  host : String
  balance : ℚ
  totalCreditsAdded : ℚ
  totalCreditsUsed : ℚ
  active : Bool
  notes : Option String
  lastUpdated : Nat
deriving DecidableEq, Repr

/-- One `BalanceTransaction` document (models/balance.js 38-71). -/
structure BalanceTransaction where
  host : String
  timestamp : Nat
  amount : ℚ
  ttype : String
  balanceAfter : ℚ
  description : String
  reference : Option String
  performedBy : Option String
deriving DecidableEq, Repr

/-- The persistent state owned by the Balance Ledger: the `HostBalance`
collection and the append-only `BalanceTransaction` collection. -/
structure LedgerState where
  hosts : List HostBalance
  transactions : List BalanceTransaction
deriving DecidableEq, Repr

/-- `HostBalance.findOne({host})`. -/
def findHost (st : LedgerState) (host : String) : Option HostBalance :=
  st.hosts.find? (fun hb => hb.host == host)

/-- `hostBalance.save()`: replace the record(s) with this host key. -/
def setHost (hosts : List HostBalance) (hb : HostBalance) : List HostBalance :=
  hosts.map (fun x => if x.host = hb.host then hb else x)

/-- Result object of `checkBalance` (BalanceService part_001, 11-61).
Fields that a given return object omits are `none`. -/
structure CheckResult where
  sufficient : Bool
  error : Option String
  balance : Option ℚ
  hostExists : Option Bool
  active : Option Bool
deriving DecidableEq, Repr

/-- `BalanceService.checkBalance(host, requiredAmount)` (part_001, 11-61).
Pure read.  `host = ""` models the JS falsy-host guard. -/
def checkBalance (st : LedgerState) (host : String) (requiredAmount : ℚ) :
    CheckResult :=
  if host = "" then
    { sufficient := false, error := some "Host identifier required"
      balance := none, hostExists := none, active := none }
  else
    match findHost st host with
    | none =>
      { sufficient := false, error := some "Host not registered in the system"
        balance := some 0, hostExists := some false, active := none }
    | some hb =>
      if hb.active = false then
        { sufficient := false, error := some "Host account is inactive"
          balance := some hb.balance, hostExists := some true
          active := some false }
      else
        let sufficient := decide (hb.balance ≥ requiredAmount)
        { sufficient := sufficient
          error := if sufficient then none else some "Insufficient balance"
          balance := some hb.balance, hostExists := some true
          active := some true }

/-- Result object of `deductCredits` (part_001, 64-120). -/
structure DeductResult where
  success : Bool
  balance : Option ℚ
  deducted : Option ℚ
  error : Option String
deriving DecidableEq, Repr

/-- `BalanceService.deductCredits(host, amount, description, reference)`
(part_001, 64-120).  Returns the result object together with the new ledger
state; a failure leaves the state untouched.  The JS guard
`!amount || amount <= 0` collapses to `amount ≤ 0` over `ℚ`. -/
def deductCredits (st : LedgerState) (now : Nat) (host : String) (amount : ℚ)
    (description : String) (reference : Option String) :
    DeductResult × LedgerState :=
  if host = "" then
    ({ success := false, balance := none, deducted := none
       error := some "Host identifier required" }, st)
  else if amount ≤ 0 then
    ({ success := false, balance := none, deducted := none
       error := some "Invalid deduction amount" }, st)
  else
    match findHost st host with
    | none =>
      ({ success := false, balance := none, deducted := none
         error := some "Host not registered in the system" }, st)
    | some hb =>
      if hb.balance < amount then
        ({ success := false, balance := none, deducted := none
           error := some "Insufficient balance" }, st)
      else
        let newBalance := hb.balance - amount
        let hb1 : HostBalance :=
          { hb with balance := newBalance
                    totalCreditsUsed := hb.totalCreditsUsed + amount
                    lastUpdated := now }
        let tx : BalanceTransaction :=
          { host := host, timestamp := now, amount := -amount
            ttype := "deduct", balanceAfter := newBalance
            description := description, reference := reference
            performedBy := none }
        ({ success := true, balance := some newBalance
           deducted := some amount, error := none },
         { hosts := setHost st.hosts hb1
           transactions := st.transactions ++ [tx] })

/-! ## Text normalisation and cache keys (app-sentiment.js 1299-1313) -/

/-- Collapse every whitespace run to a single space
(the `\s+` to single-space replacement in `cleanString`).  The boolean flag
records whether the previous character emitted was part of a run. -/
def squeezeSpaces : Bool → List Char → List Char
  | _, [] => []
  | prevWS, c :: cs =>
    if c.isWhitespace then
      (if prevWS then [] else [' ']) ++ squeezeSpaces true cs
    else
      c :: squeezeSpaces false cs

/-- Map curly quotes to straight quotes (the two regex replaces in
`cleanString`). -/
def straightenQuotes (c : Char) : Char :=
  if c = '‘' || c = '’' then '\''
  else if c = '“' || c = '”' then '\"'
  else c

/-- `String.prototype.trim`: strip whitespace from both ends. -/
def jsTrim (s : String) : String :=
  String.mk
    (((s.toList.dropWhile Char.isWhitespace).reverse.dropWhile
      Char.isWhitespace).reverse)

/-- `cleanString(text)` (app-sentiment.js 1299-1306): trim, collapse
whitespace runs, normalise curly quotes. -/
def cleanString (text : String) : String :=
  if text = "" then ""
  else
    String.mk
      ((squeezeSpaces false (jsTrim text).toList).map straightenQuotes)

/-- `generateCacheKey(text, model)` (app-sentiment.js 1309-1313): the MD5 hex
digest of `text + "|" + model`.  The digest itself is the abstract parameter
`md5hex`. -/
def generateCacheKey (md5hex : String → String) (text model : String) :
    String :=
  md5hex (text ++ "|" ++ model)

/-- `text.substring(0, 50) + (text.length > 50 ? "..." : "")`. -/
def snippet (text : String) : String :=
  String.mk (text.toList.take 50) ++
    (if text.toList.length > 50 then "..." else "")

/-! ## Result cache, analytics, system state -/

/-- `requestDetails` attached to a fresh result.  The single-text path stores
`host`, the batch path stores `originalText` (a 50-character snippet). -/
structure RequestDetails where
  model : String
  timestamp : Nat
  host : Option String
  originalText : Option String
deriving DecidableEq, Repr

/-- The value stored in the result cache and returned on the 200 path:
the parsed classification spread together with `usage`, `cost` and
`requestDetails`. -/
structure FinalResult where
  data : ParsedResult
  usage : Usage
  cost : CostBreakdown
  requestDetails : RequestDetails
deriving DecidableEq, Repr

/-- The Redis result cache: association list from cache key to
(entry, ttl seconds).  `set` prepends, `get` takes the first binding. -/
def CacheState := List (String × (FinalResult × Nat))
deriving instance DecidableEq for CacheState

/-- `redis.get(key)` followed by `JSON.parse` (entries are only written by
the system, so they always deserialise). -/
def cacheGet (c : CacheState) (key : String) : Option FinalResult :=
  (c.lookup key).map Prod.fst

/-- `redis.set(key, JSON.stringify(v), 'EX', ttl)`. -/
def cacheSet (c : CacheState) (key : String) (v : FinalResult) (ttl : Nat) :
    CacheState :=
  (key, (v, ttl)) :: c

/-- The event object passed to `updateAnalytics` (app-sentiment.js 218-231,
312-325, 1436-1448, 1505-1517).  `responseTime` is elapsed wall time and is
not modelled (the embedding is single-instant). -/
structure AnalyticsEvent where
  host : String
  text : String
  model : String
  cached : Bool
  cost : CostBreakdown
  usage : Usage
  language : Option String
  sentiment : Option Sentiment
  intents : Option (List String)
  profanity : Option Profanity
deriving DecidableEq, Repr

/-- `updateAnalytics(data)` (app-sentiment.js 1361-1373): skip when `host`
is falsy; otherwise `analyticsService.recordRequest` either persists the
event (`recordOk = true`) or throws, and the catch swallows the failure so
the store is simply unchanged.  Never throws past its boundary. -/
def updateAnalytics (recordOk : Bool) (store : List AnalyticsEvent)
    (ev : AnalyticsEvent) : List AnalyticsEvent :=
  if ev.host = "" then store
  else if recordOk then store ++ [ev]
  else store

/-- Mutable state shared by the request path: ledger, result cache, and the
analytics store. -/
structure SysState where
  ledger : LedgerState
  cache : CacheState
  analytics : List AnalyticsEvent
deriving DecidableEq

/-! ## Upstream classifier adapter (callOpenAI + JSON.parse) -/

/-- Outcome of `JSON.parse(openAIResponse.data.choices[0].message.content)`:
a thrown `SyntaxError`, or a parsed value (whose fields may be absent). -/
inductive ParseOutcome
  | failed
  | parsed (result : ParsedResult)
deriving DecidableEq, Repr

/-- Outcome of one `callOpenAI` invocation: a network/HTTP rejection
(anything that makes the awaited axios promise throw, including a missing
`choices[0]`), or an HTTP 200 carrying a message content (by its parse
outcome) and a usage object. -/
inductive UpstreamOutcome
  | netError (details : String)
  | ok (content : ParseOutcome) (usage : Usage)
deriving DecidableEq, Repr

/-- The worst-case estimated cost computed identically at app-sentiment.js
165-167 and 1398-1400: `Math.ceil(text.length / 4) / 1000 * (input + output)`
for the model's pricing. -/
def estimatedCostOf (text model : String) : ℚ :=
  let estimatedTokens : Nat := (text.length + 3) / 4
  let pr := modelPricing model
  ((estimatedTokens : ℚ) / 1000) * (pr.1 + pr.2)

/-! ## POST /api/analyze (app-sentiment.js 149-340) -/

/-- JS string truthiness on an optional field: `none` (absent) and `""` are
falsy. -/
def jsTruthy (o : Option String) : Option String :=
  match o with
  | none => none
  | some s => if s = "" then none else some s

/-- Request body of POST /api/analyze. -/
structure AnalyzeBody where
  text : Option String
  host : Option String
  model : Option String
deriving DecidableEq, Repr

/-- Why a 500 was produced: an error caught by the outer `try` (upstream
rejection or a later `TypeError`), carrying its `details` string, or the
dedicated `Failed to parse OpenAI response` return (which has no `details`
field). -/
inductive ServerErrorCause
  | caught (details : String)
  | openAIParse
deriving DecidableEq, Repr

/-- HTTP response of POST /api/analyze. -/
inductive AnalyzeResponse
  | badRequest (error : String)
  | paymentRequired (details : Option String) (balance : ℚ)
      (estimatedCost : ℚ) (hostExists : Bool) (active : Bool)
  | serverError (cause : ServerErrorCause)
  | ok (result : FinalResult) (cached : Bool) (balanceRemaining : ℚ)
deriving DecidableEq, Repr

/-- Everything observable about one run of the analyze handler: the HTTP
response, the post-state, and the analytics record attempts the handler
awaited before responding (each corresponds to one `await updateAnalytics`
reached). -/
structure AnalyzeOutcome where
  response : AnalyzeResponse
  state : SysState
  analyticsAttempted : List AnalyticsEvent
deriving DecidableEq

/-- Details string of the `TypeError` thrown when `calculateBatchSummary`
reads a field of an undefined `sentiment`/`intents` of a successful result.
The exact JS message text is environment specific. -/
def summaryTypeErrorDetails : String := "TypeError in calculateBatchSummary"

/-- Details string of the `TypeError` thrown when `determineTTL` reads
`.includes` of an undefined `intents` (or `.sentiment` of an undefined
`sentiment`); the exact JS message text is environment specific. -/
def ttlTypeErrorDetails : String := "TypeError in determineTTL"

/-- The POST /api/analyze handler (app-sentiment.js 149-340).
Parameters: `md5hex` the abstract MD5; `now` the clock; `recordOk` whether
`analyticsService.recordRequest` succeeds; `upstream` the outcome of the
(single possible) `callOpenAI` invocation; `defaultTTL` models
`process.env.CACHE_TTL || 86400`. -/
def analyzeHandler (md5hex : String → String) (now : Nat) (recordOk : Bool)
    (upstream : UpstreamOutcome) (defaultTTL : Nat) (st : SysState)
    (body : AnalyzeBody) : AnalyzeOutcome :=
  match jsTruthy body.text with
  | none => ⟨.badRequest "Text is required", st, []⟩
  | some text =>
    match jsTruthy body.host with
    | none => ⟨.badRequest "host is required. e.g. host.customer.com", st, []⟩
    | some host =>
      let model := body.model.getD DEFAULT_MODEL
      let estimatedCost : ℚ := estimatedCostOf text model
      let balanceCheck := checkBalance st.ledger host estimatedCost
      if balanceCheck.sufficient = false then
        ⟨.paymentRequired balanceCheck.error (balanceCheck.balance.getD 0)
            estimatedCost (balanceCheck.hostExists.getD false)
            (balanceCheck.active.getD false), st, []⟩
      else
        let cleanedText := cleanString text
        let cacheKey := generateCacheKey md5hex cleanedText model
        match cacheGet st.cache cacheKey with
        | some result =>
          -- cache hit branch (lines 192-239)
          let cacheCost := result.cost.totalCost * 0.1
          let ledger1 :=
            if cacheCost > 0 then
              (deductCredits st.ledger now host cacheCost
                ("Cache hit for sentiment analysis (" ++ model ++ ")")
                (some cacheKey)).2
            else st.ledger
          let ev : AnalyticsEvent :=
            { host := host, text := cleanedText, model := model
              cached := true, cost := result.cost, usage := result.usage
              language := result.data.language
              sentiment := result.data.sentiment
              intents := result.data.intents
              profanity := result.data.profanity }
          let analytics1 := updateAnalytics recordOk st.analytics ev
          ⟨.ok result true
              ((balanceCheck.balance.getD 0) -
                (if cacheCost = 0 then 0 else cacheCost)),
           ⟨ledger1, st.cache, analytics1⟩, [ev]⟩
        | none =>
          -- cache miss branch (lines 241-332)
          match upstream with
          | .netError details =>
            -- awaited axios promise rejected; outer catch sends 500
            ⟨.serverError (.caught details), st, []⟩
          | .ok content usage =>
            match content with
            | .failed =>
              -- JSON.parse threw; dedicated 500 return (lines 266-269)
              ⟨.serverError .openAIParse, st, []⟩
            | .parsed result =>
              let costInfo := calculateCost usage model
              let actualCost := costInfo.totalCost
              let step :=
                deductCredits st.ledger now host actualCost
                  ("Sentiment analysis (" ++ model ++ ")") (some cacheKey)
              let deduction := step.1
              let ledger1 := step.2
              let finalResult : FinalResult :=
                { data := result, usage := usage, cost := costInfo
                  requestDetails :=
                    { model := model, timestamp := now
                      host := some host, originalText := none } }
              match determineTTL defaultTTL result with
              | none =>
                -- TypeError inside determineTTL, caught by the outer try:
                -- the deduction above has already been persisted
                ⟨.serverError (.caught ttlTypeErrorDetails),
                 ⟨ledger1, st.cache, st.analytics⟩, []⟩
              | some ttl =>
                let cache1 := cacheSet st.cache cacheKey finalResult ttl
                let ev : AnalyticsEvent :=
                  { host := host, text := cleanedText, model := model
                    cached := false, cost := costInfo, usage := usage
                    language := result.language
                    sentiment := result.sentiment
                    intents := result.intents
                    profanity := result.profanity }
                let analytics1 := updateAnalytics recordOk st.analytics ev
                ⟨.ok finalResult false
                    (if deduction.success then deduction.balance.getD 0
                     else (balanceCheck.balance.getD 0) - actualCost),
                 ⟨ledger1, cache1, analytics1⟩, [ev]⟩

/-! ## POST /api/batch (app-sentiment.js 343-375, 1392-1521, 1524-1559) -/

/-- One element of the batch `results` array: either the insufficient-balance
error entry built at lines 1407-1413, or a (possibly cached) analysis
result. -/
inductive ItemOutcome
  | errorEntry (error : String) (details : Option String) (balance : ℚ)
      (estimatedCost : ℚ) (text : String)
  | success (result : FinalResult) (cached : Bool)
deriving DecidableEq, Repr

/-- `processText(text, model, host)` (app-sentiment.js 1392-1521).
`Except.error d` models the promise rejecting with an error whose message is
`d` (upstream rejection, `JSON.parse` throw, or the `determineTTL`
`TypeError`); the state reached before the throw is still returned, since
side effects already awaited have been persisted. -/
def processText (md5hex : String → String) (now : Nat) (recordOk : Bool)
    (upstream : UpstreamOutcome) (defaultTTL : Nat) (st : SysState)
    (text : String) (model host : String) :
    Except String ItemOutcome × SysState :=
  let cleanedText := cleanString text
  let cacheKey := generateCacheKey md5hex cleanedText model
  let estimatedCost : ℚ := estimatedCostOf text model
  let balanceCheck := checkBalance st.ledger host estimatedCost
  if balanceCheck.sufficient = false then
    (.ok (.errorEntry "Payment required" balanceCheck.error
        (balanceCheck.balance.getD 0) estimatedCost (snippet text)), st)
  else
    match cacheGet st.cache cacheKey with
    | some result =>
      let cacheCost := result.cost.totalCost * 0.1
      let ledger1 :=
        if cacheCost > 0 then
          (deductCredits st.ledger now host cacheCost
            ("Cache hit for batch sentiment analysis (" ++ model ++ ")")
            (some cacheKey)).2
        else st.ledger
      let ev : AnalyticsEvent :=
        { host := host, text := cleanedText, model := model
          cached := true, cost := result.cost, usage := result.usage
          language := result.data.language, sentiment := result.data.sentiment
          intents := result.data.intents, profanity := result.data.profanity }
      (.ok (.success result true),
       ⟨ledger1, st.cache, updateAnalytics recordOk st.analytics ev⟩)
    | none =>
      match upstream with
      | .netError details => (.error details, st)
      | .ok content usage =>
        match content with
        | .failed =>
          -- JSON.parse throws here with no surrounding try (line 1470)
          (.error "Unexpected token in JSON", st)
        | .parsed result =>
          let costInfo := calculateCost usage model
          let ledger1 :=
            (deductCredits st.ledger now host costInfo.totalCost
              ("Batch sentiment analysis (" ++ model ++ ")")
              (some cacheKey)).2
          let finalResult : FinalResult :=
            { data := result, usage := usage, cost := costInfo
              requestDetails :=
                { model := model, timestamp := now, host := none
                  originalText := some (snippet text) } }
          match determineTTL defaultTTL result with
          | none =>
            (.error ttlTypeErrorDetails, ⟨ledger1, st.cache, st.analytics⟩)
          | some ttl =>
            let cache1 := cacheSet st.cache cacheKey finalResult ttl
            let ev : AnalyticsEvent :=
              { host := host, text := cleanedText, model := model
                cached := false, cost := costInfo, usage := usage
                language := result.language, sentiment := result.sentiment
                intents := result.intents, profanity := result.profanity }
            (.ok (.success finalResult false),
             ⟨ledger1, cache1, updateAnalytics recordOk st.analytics ev⟩)

/-- `texts.map(text => processText(...))` under `Promise.all`: every item
runs (side effects persist even if an earlier item rejected), items take
their upstream outcome from `upstream i` by position.  The concurrent
interleaving is sequentialised in list order. -/
def runItems (md5hex : String → String) (now : Nat) (recordOk : Bool)
    (upstream : Nat → UpstreamOutcome) (defaultTTL : Nat) (model host : String) :
    SysState → List String → Nat →
    List (Except String ItemOutcome) × SysState
  | st, [], _ => ([], st)
  | st, t :: ts, i =>
    let step := processText md5hex now recordOk (upstream i) defaultTTL st
        t model host
    let rest := runItems md5hex now recordOk upstream defaultTTL model host
        step.2 ts (i + 1)
    (step.1 :: rest.1, rest.2)

/-- First rejection among the item promises (`Promise.all` rejects with it). -/
def firstThrown (rs : List (Except String ItemOutcome)) : Option String :=
  rs.findSome? (fun r => match r with | .error e => some e | .ok _ => none)

/-- The fulfilled values once no item rejected. -/
def okResults (rs : List (Except String ItemOutcome)) : List ItemOutcome :=
  rs.filterMap (fun r => match r with | .ok v => some v | .error _ => none)

/-- `haystack.includes(needle)` on char lists: some suffix of the haystack
starts with the needle. -/
def listIncludes (haystack needle : List Char) : Bool :=
  needle.isPrefixOf haystack ||
    (match haystack with
     | [] => false
     | _ :: t => listIncludes t needle)

/-- `r.details && r.details.includes('balance')` for an error entry. -/
def detailsMentionBalance (details : Option String) : Bool :=
  match details with
  | none => false
  | some d => d ≠ "" && listIncludes d.toList "balance".toList

/-- The summary object of `calculateBatchSummary` (app-sentiment.js
1524-1559). -/
structure BatchSummary where
  totalTexts : Nat
  successful : Nat
  failed : Nat
  cached : Nat
  fresh : Nat
  avgSentimentScore : ℚ
  totalCost : ℚ
  totalPrice : ℚ
  profit : ℚ
  positive : Nat
  neutral : Nat
  negative : Nat
  intents : List (String × Nat)
  balanceErrors : Nat
  otherErrors : Nat
deriving DecidableEq, Repr

/-- `map[intent] = (map[intent] || 0) + 1` over an insertion-ordered map. -/
def bumpIntent (m : List (String × Nat)) (i : String) : List (String × Nat) :=
  match m.lookup i with
  | some n => m.map (fun p => if p.1 = i then (p.1, n + 1) else p)
  | none => m ++ [(i, 1)]

/-- `calculateBatchSummary(batchResults)` (app-sentiment.js 1524-1559).
Returns `none` when the JS code would throw a `TypeError`: a successful
result whose `sentiment` or `intents` is undefined (accessed at lines
1535 and 1553). -/
def calculateBatchSummary (batchResults : List ItemOutcome) :
    Option BatchSummary :=
  let succ := batchResults.filterMap
    (fun r => match r with
      | .success fr cached => some (fr, cached)
      | .errorEntry .. => none)
  let failed := batchResults.filterMap
    (fun r => match r with
      | .errorEntry e d b ec t => some (e, d, b, ec, t)
      | .success .. => none)
  if succ.any (fun p => p.1.data.sentiment = none) then none
  else if succ.any (fun p => p.1.data.intents = none) then none
  else
    some
      { totalTexts := batchResults.length
        successful := succ.length
        failed := failed.length
        cached := (succ.filter (fun p => p.2)).length
        fresh := (succ.filter (fun p => !p.2)).length
        avgSentimentScore :=
          if succ.length > 0 then
            (succ.map (fun p =>
              ((p.1.data.sentiment.map Sentiment.score).getD 0))).sum /
              (succ.length : ℚ)
          else 0
        totalCost := (succ.map (fun p => p.1.cost.totalCost)).sum
        totalPrice := (succ.map (fun p => p.1.cost.totalPrice)).sum
        profit := (succ.map
          (fun p => p.1.cost.totalPrice - p.1.cost.totalCost)).sum
        positive := (succ.filter (fun p =>
          (p.1.data.sentiment.map Sentiment.sentiment) = some "positive")).length
        neutral := (succ.filter (fun p =>
          (p.1.data.sentiment.map Sentiment.sentiment) = some "neutral")).length
        negative := (succ.filter (fun p =>
          (p.1.data.sentiment.map Sentiment.sentiment) = some "negative")).length
        intents := succ.foldl
          (fun m p => (p.1.data.intents.getD []).foldl bumpIntent m) []
        balanceErrors := (failed.filter
          (fun f => detailsMentionBalance f.2.1)).length
        otherErrors := (failed.filter
          (fun f => !detailsMentionBalance f.2.1)).length }

/-- `req.body.host || req.headers.host || 'default'` (app-sentiment.js 345),
with JS string falsiness. -/
def batchHost (bodyHost headerHost : Option String) : String :=
  match jsTruthy bodyHost with
  | some h => h
  | none =>
    match jsTruthy headerHost with
    | some h => h
    | none => "default"

/-- Request body of POST /api/batch.  `texts = none` models a missing or
non-array `texts` field. -/
structure BatchBody where
  texts : Option (List String)
  host : Option String
  model : Option String
deriving DecidableEq, Repr

/-- HTTP response of POST /api/batch. -/
inductive BatchResponse
  | badRequest (error : String)
  | serverError (details : String)
  | ok (summary : BatchSummary) (results : List ItemOutcome)
deriving DecidableEq, Repr

/-- Outcome of one run of the batch handler. -/
structure BatchOutcome where
  response : BatchResponse
  state : SysState
deriving DecidableEq

/-- The POST /api/batch handler (app-sentiment.js 343-375).  A rejected item
promise rejects the `Promise.all`, and the catch turns the first rejection
into a single 500; otherwise the summary is computed (which can itself
throw, yielding the same catch). -/
def batchHandler (md5hex : String → String) (now : Nat) (recordOk : Bool)
    (upstream : Nat → UpstreamOutcome) (defaultTTL : Nat) (st : SysState)
    (body : BatchBody) (headerHost : Option String) : BatchOutcome :=
  let model := body.model.getD DEFAULT_MODEL
  let host := batchHost body.host headerHost
  match body.texts with
  | none => ⟨.badRequest "Array of texts is required", st⟩
  | some texts =>
    if texts.length = 0 then ⟨.badRequest "Array of texts is required", st⟩
    else if texts.length > 100 then
      ⟨.badRequest "Batch size too large. Maximum allowed is 100 texts.", st⟩
    else
      let run := runItems md5hex now recordOk upstream defaultTTL model host
          st texts 0
      match firstThrown run.1 with
      | some details => ⟨.serverError details, run.2⟩
      | none =>
        match calculateBatchSummary (okResults run.1) with
        | none => ⟨.serverError summaryTypeErrorDetails, run.2⟩
        | some summary => ⟨.ok summary (okResults run.1), run.2⟩

/-! ## DELETE /api/cache (app-sentiment.js 378-430) -/

/-- `String.prototype.startsWith` on char lists. -/
def jsStartsWith (s pre : String) : Bool :=
  pre.toList.isPrefixOf s.toList

/-- Redis `KEYS` glob matching restricted to `*`, `?` and literal
characters (character classes and escapes, which this repository never uses
in its own calls, are not modelled).  Structured with explicit fuel so the
definition is kernel-computable; every recursive call strictly decreases
`pattern.length + key.length`, so any fuel above that bound gives the fuel-free
semantics. -/
def globMatch (fuel : Nat) (p s : List Char) : Bool :=
  match fuel with
  | 0 => false
  | fuel + 1 =>
    match p, s with
    | [], [] => true
    | [], _ :: _ => false
    | '*' :: ps, s =>
      globMatch fuel ps s ||
        (match s with
         | [] => false
         | _ :: s1 => globMatch fuel ('*' :: ps) s1)
    | '?' :: ps, _ :: s1 => globMatch fuel ps s1
    | '?' :: _, [] => false
    | c :: ps, c1 :: s1 => c = c1 && globMatch fuel ps s1
    | _ :: _, [] => false

/-- Whether a key matches a Redis glob pattern. -/
def keyMatches (pattern key : String) : Bool :=
  globMatch (pattern.toList.length + key.toList.length + 1)
    pattern.toList key.toList

/-- Response of DELETE /api/cache. -/
inductive CacheDeleteResponse
  | deletedKey (success : Bool) (message : String)
  | deletedByPattern (count : Nat)
  | noMatch
  | flushed (count : Nat)
  | nothingToClear
deriving DecidableEq, Repr

/-- The DELETE /api/cache handler (app-sentiment.js 378-430) acting on the
Redis keyspace (the full set of keys, including `analytics*` and `session*`
keys).  Returns the response and the surviving keyspace. -/
def cacheDeleteHandler (key pattern : Option String) (ks : List String) :
    CacheDeleteResponse × List String :=
  match jsTruthy key with
  | some k =>
    let deleted := (ks.filter (fun x => x = k)).length
    (.deletedKey (deleted > 0)
      (if deleted > 0 then "Cache entry deleted" else "Cache key not found"),
     ks.filter (fun x => x ≠ k))
  | none =>
    match jsTruthy pattern with
    | some p =>
      let keys := ks.filter (fun x => keyMatches p x)
      if keys.length > 0 then
        (.deletedByPattern keys.length, ks.filter (fun x => !keyMatches p x))
      else
        (.noMatch, ks)
    | none =>
      -- flush branch: filter out analytics/session keys before deleting
      let nonSystemKeys := ks.filter
        (fun k => !(jsStartsWith k "analytics") && !(jsStartsWith k "session"))
      if nonSystemKeys.length > 0 then
        (.flushed nonSystemKeys.length,
         ks.filter (fun k =>
           jsStartsWith k "analytics" || jsStartsWith k "session"))
      else
        (.nothingToClear, ks)

/-! ## Helper lemmas -/

theorem round6_def (x : ℚ) : round6 x = (round (x * 1000000) : ℤ) / 1000000 :=
  rfl

theorem abs_round6_sub (x : ℚ) : |round6 x - x| ≤ 1 / 2000000 := by
  have h : |x * 1000000 - round (x * 1000000)| ≤ 1 / 2 :=
    abs_sub_round (x * 1000000)
  have hx : round6 x - x = ((round (x * 1000000) : ℚ) - x * 1000000) / 1000000 := by
    rw [round6_def]; ring
  rw [hx, abs_div, abs_of_pos (by norm_num : (0:ℚ) < 1000000)]
  rw [abs_sub_comm] at h
  linarith

theorem round6_mono {x y : ℚ} (h : x ≤ y) : round6 x ≤ round6 y := by
  rw [round6_def, round6_def]
  have hm : round (x * 1000000) ≤ round (y * 1000000) := by
    rw [round_eq, round_eq]
    exact Int.floor_le_floor (by linarith)
  have : ((round (x * 1000000) : ℤ) : ℚ) ≤ ((round (y * 1000000) : ℤ) : ℚ) := by
    exact_mod_cast hm
  linarith

theorem round6_nonneg {x : ℚ} (h : 0 ≤ x) : 0 ≤ round6 x := by
  have h0 : round6 0 = 0 := by
    rw [round6_def]; norm_num
  have := round6_mono h
  rw [h0] at this
  exact this

theorem round6_sixDecimals (x : ℚ) : ∃ k : ℤ, round6 x = (k : ℚ) / 1000000 :=
  ⟨round (x * 1000000), rfl⟩

theorem round6_add_close (a b : ℚ) :
    |round6 (a + b) - (round6 a + round6 b)| ≤ 3 / 2000000 := by
  have h1 := abs_round6_sub (a + b)
  have h2 := abs_round6_sub a
  have h3 := abs_round6_sub b
  have e : round6 (a + b) - (round6 a + round6 b) =
      (round6 (a + b) - (a + b)) - (round6 a - a) - (round6 b - b) := by ring
  rw [e]
  calc |(round6 (a + b) - (a + b)) - (round6 a - a) - (round6 b - b)|
      ≤ |(round6 (a + b) - (a + b)) - (round6 a - a)| + |round6 b - b| :=
        abs_sub _ _
    _ ≤ |round6 (a + b) - (a + b)| + |round6 a - a| + |round6 b - b| := by
        have := abs_sub (round6 (a + b) - (a + b)) (round6 a - a)
        linarith
    _ ≤ 3 / 2000000 := by linarith

theorem round6_markup_close (a : ℚ) :
    |round6 (a * (5 / 4)) - round6 a * (5 / 4)| ≤ 9 / 8000000 := by
  have h1 := abs_round6_sub (a * (5 / 4))
  have h2 := abs_round6_sub a
  have e : round6 (a * (5 / 4)) - round6 a * (5 / 4) =
      (round6 (a * (5 / 4)) - a * (5 / 4)) - (round6 a - a) * (5 / 4) := by
    ring
  rw [e]
  have habs : |(round6 a - a) * (5 / 4)| = |round6 a - a| * (5 / 4) := by
    rw [abs_mul, abs_of_pos (by norm_num : (0:ℚ) < 5 / 4)]
  calc |(round6 (a * (5 / 4)) - a * (5 / 4)) - (round6 a - a) * (5 / 4)|
      ≤ |round6 (a * (5 / 4)) - a * (5 / 4)| + |(round6 a - a) * (5 / 4)| :=
        abs_sub _ _
    _ = |round6 (a * (5 / 4)) - a * (5 / 4)| + |round6 a - a| * (5 / 4) := by
        rw [habs]
    _ ≤ 9 / 8000000 := by linarith

theorem modelPricing_pos (model : String) :
    0 < (modelPricing model).1 ∧ 0 < (modelPricing model).2 := by
  unfold modelPricing
  split_ifs <;> norm_num

/-- The pre-rounding input-side cost in `calculateCost`. -/
def rawInputCost (usage : Usage) (model : String) : ℚ :=
  ((usage.prompt_tokens : ℚ) / 1000) * (modelPricing model).1

/-- The pre-rounding output-side cost in `calculateCost`. -/
def rawOutputCost (usage : Usage) (model : String) : ℚ :=
  ((usage.completion_tokens : ℚ) / 1000) * (modelPricing model).2

theorem calculateCost_fields (usage : Usage) (model : String) :
    calculateCost usage model =
      { inputCost := round6 (rawInputCost usage model)
        outputCost := round6 (rawOutputCost usage model)
        totalCost := round6 (rawInputCost usage model + rawOutputCost usage model)
        inputPrice := round6 (rawInputCost usage model * (5 / 4))
        outputPrice := round6 (rawOutputCost usage model * (5 / 4))
        totalPrice := round6
          ((rawInputCost usage model + rawOutputCost usage model) * (5 / 4))
        currency := "USD" } := by
  unfold calculateCost rawInputCost rawOutputCost
  have hq : (0.25 : ℚ) = 1 / 4 := by norm_num
  simp only [CostBreakdown.mk.injEq, eq_self_iff_true, true_and, and_true]
  refine ⟨?_, ?_, ?_⟩ <;> (congr 1; rw [hq]; ring)

theorem rawInputCost_nonneg (usage : Usage) (model : String) :
    0 ≤ rawInputCost usage model := by
  have := (modelPricing_pos model).1
  unfold rawInputCost
  positivity

theorem rawOutputCost_nonneg (usage : Usage) (model : String) :
    0 ≤ rawOutputCost usage model := by
  have := (modelPricing_pos model).2
  unfold rawOutputCost
  positivity

/-- Claim C9: for every token usage `(p, c)` and model, `calculateCost`
produces a breakdown whose six numeric fields are exact multiples of
`10^-6` (rounded to 6 decimal places), whose `totalCost` equals
`inputCost + outputCost` and whose prices equal the matching cost times
`5/4` (25% markup) up to the 6-decimal rounding of each field, with
`currency = "USD"` and `0 ≤ totalCost ≤ totalPrice`. -/
theorem claim_C9 (usage : Usage) (model : String) :
    (calculateCost usage model).currency = "USD"
  ∧ (∃ k : ℤ, (calculateCost usage model).inputCost = (k : ℚ) / 1000000)
  ∧ (∃ k : ℤ, (calculateCost usage model).outputCost = (k : ℚ) / 1000000)
  ∧ (∃ k : ℤ, (calculateCost usage model).totalCost = (k : ℚ) / 1000000)
  ∧ (∃ k : ℤ, (calculateCost usage model).inputPrice = (k : ℚ) / 1000000)
  ∧ (∃ k : ℤ, (calculateCost usage model).outputPrice = (k : ℚ) / 1000000)
  ∧ (∃ k : ℤ, (calculateCost usage model).totalPrice = (k : ℚ) / 1000000)
  ∧ |(calculateCost usage model).totalCost -
      ((calculateCost usage model).inputCost +
        (calculateCost usage model).outputCost)| ≤ 3 / 2000000
  ∧ |(calculateCost usage model).inputPrice -
      (calculateCost usage model).inputCost * (5 / 4)| ≤ 9 / 8000000
  ∧ |(calculateCost usage model).outputPrice -
      (calculateCost usage model).outputCost * (5 / 4)| ≤ 9 / 8000000
  ∧ |(calculateCost usage model).totalPrice -
      (calculateCost usage model).totalCost * (5 / 4)| ≤ 9 / 8000000
  ∧ 0 ≤ (calculateCost usage model).totalCost
  ∧ (calculateCost usage model).totalCost ≤
      (calculateCost usage model).totalPrice := by
  rw [calculateCost_fields]
  have hin := rawInputCost_nonneg usage model
  have hout := rawOutputCost_nonneg usage model
  have hT : 0 ≤ rawInputCost usage model + rawOutputCost usage model := by
    linarith
  refine ⟨rfl, round6_sixDecimals _, round6_sixDecimals _, round6_sixDecimals _,
    round6_sixDecimals _, round6_sixDecimals _, round6_sixDecimals _,
    round6_add_close _ _, round6_markup_close _, round6_markup_close _,
    round6_markup_close _, round6_nonneg hT, round6_mono ?_⟩
  nlinarith

/-- Claim C8: the TTL rules are evaluated in priority order — 3600 for
news/current_events, else 604800 for factual/reference, else 43200 for
strongly negative sentiment (`negative` and score < -0.5), else the
configurable default; in particular the news rule wins over the
negative-sentiment rule. -/
theorem claim_C8 (d : Nat) (r : ParsedResult) (l : List String)
    (s : Sentiment) (hi : r.intents = some l) (hs : r.sentiment = some s) :
    ((l.contains "news" = true ∨ l.contains "current_events" = true) →
        determineTTL d r = some 3600)
  ∧ (¬(l.contains "news" = true ∨ l.contains "current_events" = true) →
      (l.contains "factual" = true ∨ l.contains "reference" = true) →
        determineTTL d r = some 604800)
  ∧ (¬(l.contains "news" = true ∨ l.contains "current_events" = true) →
     ¬(l.contains "factual" = true ∨ l.contains "reference" = true) →
      s.sentiment = "negative" → s.score < -0.5 →
        determineTTL d r = some 43200)
  ∧ (¬(l.contains "news" = true ∨ l.contains "current_events" = true) →
     ¬(l.contains "factual" = true ∨ l.contains "reference" = true) →
     ¬(s.sentiment = "negative" ∧ s.score < -0.5) →
        determineTTL d r = some d) := by
  refine ⟨?_, ?_, ?_, ?_⟩
  · intro h
    have h1 : "news" ∈ l ∨ "current_events" ∈ l := by simpa using h
    simp [determineTTL, hi, h1]
  · intro h1 h2
    have h3 : ¬("news" ∈ l ∨ "current_events" ∈ l) := by simpa using h1
    have h4 : "factual" ∈ l ∨ "reference" ∈ l := by simpa using h2
    simp [determineTTL, hi, h3, h4]
  · intro h1 h2 h3 h4
    have h5 : ¬("news" ∈ l ∨ "current_events" ∈ l) := by simpa using h1
    have h6 : ¬("factual" ∈ l ∨ "reference" ∈ l) := by simpa using h2
    simp [determineTTL, hi, hs, h5, h6, h3, h4]
  · intro h1 h2 h3
    have h5 : ¬("news" ∈ l ∨ "current_events" ∈ l) := by simpa using h1
    have h6 : ¬("factual" ∈ l ∨ "reference" ∈ l) := by simpa using h2
    simp [determineTTL, hi, hs, h5, h6, h3]

/-- Witness for C8: a result with intents `["news"]` and strongly negative
sentiment (score `-0.9`) gets TTL 3600 — the news rule wins. -/
theorem claim_C8_witness :
    determineTTL 86400
      { language := some "en", sentiment := some { score := -0.9, sentiment := "negative" }
        profanity := some { score := 0, words := [] }
        intents := some ["news"] } = some 3600 :=
  (claim_C8 86400
    { language := some "en", sentiment := some { score := -0.9, sentiment := "negative" }
      profanity := some { score := 0, words := [] }
      intents := some ["news"] } ["news"]
    { score := -0.9, sentiment := "negative" } rfl rfl).1 (by decide)

/-! ## Ledger lemmas -/

theorem deductCredits_nonpos (st : LedgerState) (now : Nat) (host : String)
    (amount : ℚ) (descr : String) (ref : Option String) (h : amount ≤ 0) :
    (deductCredits st now host amount descr ref).1.success = false ∧
    (deductCredits st now host amount descr ref).2 = st := by
  unfold deductCredits
  by_cases hh : host = "" <;> simp [hh, h]

theorem deductCredits_noHost (st : LedgerState) (now : Nat) (host : String)
    (amount : ℚ) (descr : String) (ref : Option String)
    (h : findHost st host = none) :
    (deductCredits st now host amount descr ref).1.success = false ∧
    (deductCredits st now host amount descr ref).2 = st := by
  unfold deductCredits
  by_cases hh : host = ""
  · simp [hh]
  · by_cases ha : amount ≤ 0
    · simp [hh, ha]
    · simp [hh, ha, h]

theorem deductCredits_insufficient (st : LedgerState) (now : Nat)
    (host : String) (amount : ℚ) (descr : String) (ref : Option String)
    (hb : HostBalance) (hfind : findHost st host = some hb)
    (hlt : hb.balance < amount) :
    (deductCredits st now host amount descr ref).1.success = false ∧
    (deductCredits st now host amount descr ref).2 = st := by
  unfold deductCredits
  by_cases hh : host = ""
  · simp [hh]
  · by_cases ha : amount ≤ 0
    · simp [hh, ha]
    · simp [hh, ha, hfind, hlt]

theorem deductCredits_success_eq (st : LedgerState) (now : Nat)
    (host : String) (amount : ℚ) (descr : String) (ref : Option String)
    (hb : HostBalance) (hfind : findHost st host = some hb)
    (hhost : host ≠ "") (hpos : 0 < amount) (hle : amount ≤ hb.balance) :
    deductCredits st now host amount descr ref =
      ({ success := true, balance := some (hb.balance - amount)
         deducted := some amount, error := none },
       { hosts := setHost st.hosts
           { hb with balance := hb.balance - amount
                     totalCreditsUsed := hb.totalCreditsUsed + amount
                     lastUpdated := now }
         transactions := st.transactions ++
           [{ host := host, timestamp := now, amount := -amount
              ttype := "deduct", balanceAfter := hb.balance - amount
              description := descr, reference := ref
              performedBy := none }] }) := by
  unfold deductCredits
  simp [hhost, not_le.mpr hpos, hfind, not_lt.mpr hle]

theorem deductCredits_emptyHost (st : LedgerState) (now : Nat)
    (amount : ℚ) (descr : String) (ref : Option String) :
    (deductCredits st now "" amount descr ref).1.success = false ∧
    (deductCredits st now "" amount descr ref).2 = st := by
  unfold deductCredits
  simp

theorem deductCredits_success_inv (st : LedgerState) (now : Nat)
    (host : String) (amount : ℚ) (descr : String) (ref : Option String)
    (h : (deductCredits st now host amount descr ref).1.success = true) :
    host ≠ "" ∧ 0 < amount ∧
      ∃ hb, findHost st host = some hb ∧ amount ≤ hb.balance := by
  by_cases hh : host = ""
  · subst hh
    rw [(deductCredits_emptyHost st now amount descr ref).1] at h
    exact absurd h (by simp)
  · by_cases ha : amount ≤ 0
    · rw [(deductCredits_nonpos st now host amount descr ref ha).1] at h
      exact absurd h (by simp)
    · match hfind : findHost st host with
      | none =>
        rw [(deductCredits_noHost st now host amount descr ref hfind).1] at h
        exact absurd h (by simp)
      | some hb =>
        by_cases hlt : hb.balance < amount
        · rw [(deductCredits_insufficient st now host amount descr ref hb
            hfind hlt).1] at h
          exact absurd h (by simp)
        · exact ⟨hh, not_le.mp ha, hb, rfl, not_lt.mp hlt⟩

theorem find?_setHost (l : List HostBalance) (host : String)
    (hb hb1 : HostBalance)
    (hfind : l.find? (fun x => x.host == host) = some hb)
    (hnew : hb1.host = hb.host) :
    (setHost l hb1).find? (fun x => x.host == host) = some hb1 := by
  induction l with
  | nil => simp at hfind
  | cons a t ih =>
    have hbhost : hb.host = host := by
      have := List.find?_some hfind
      simpa using List.find?_some hfind
    by_cases ha : a.host = host
    · have hba : hb = a := by
        rw [List.find?_cons_of_pos _ (by simpa using ha)] at hfind
        exact (Option.some.injEq _ _ ▸ hfind.symm)
      have hcond : a.host = hb1.host := by rw [hnew, hba]
      simp only [setHost, List.map_cons, if_pos hcond]
      rw [List.find?_cons_of_pos _ (by simp [hnew, hba, ha])]
    · rw [List.find?_cons_of_neg _ (by simpa using ha)] at hfind
      have hcond : ¬(a.host = hb1.host) := by
        rw [hnew, hbhost]; exact ha
      simp only [setHost, List.map_cons, if_neg hcond]
      rw [List.find?_cons_of_neg _ (by simpa using ha)]
      exact ih hfind

theorem mem_setHost {x : HostBalance} {l : List HostBalance}
    {hb1 : HostBalance} (h : x ∈ setHost l hb1) : x = hb1 ∨ x ∈ l := by
  unfold setHost at h
  rcases List.mem_map.mp h with ⟨y, hy, he⟩
  by_cases hc : y.host = hb1.host
  · rw [if_pos hc] at he
    exact Or.inl he.symm
  · rw [if_neg hc] at he
    exact Or.inr (he ▸ hy)

theorem deduct_preserves_nonneg (st : LedgerState) (now : Nat)
    (host : String) (amount : ℚ) (descr : String) (ref : Option String)
    (h : ∀ hb ∈ st.hosts, 0 ≤ hb.balance) :
    ∀ hb ∈ (deductCredits st now host amount descr ref).2.hosts,
      0 ≤ hb.balance := by
  intro hb2 hmem
  by_cases hh : host = ""
  · subst hh
    rw [(deductCredits_emptyHost st now amount descr ref).2] at hmem
    exact h _ hmem
  · by_cases ha : amount ≤ 0
    · rw [(deductCredits_nonpos st now host amount descr ref ha).2] at hmem
      exact h _ hmem
    · match hfind : findHost st host with
      | none =>
        rw [(deductCredits_noHost st now host amount descr ref hfind).2] at hmem
        exact h _ hmem
      | some hbf =>
        by_cases hlt : hbf.balance < amount
        · rw [(deductCredits_insufficient st now host amount descr ref hbf
            hfind hlt).2] at hmem
          exact h _ hmem
        · rw [deductCredits_success_eq st now host amount descr ref hbf hfind
            hh (not_le.mp ha) (not_lt.mp hlt)] at hmem
          rcases mem_setHost hmem with he | hmem2
          · rw [he]
            have hfb : 0 ≤ hbf.balance - amount := by
              have := not_lt.mp hlt
              linarith
            simpa using hfb
          · exact h _ hmem2

/-- The composite effect of a sequence of `deductCredits` calls
(host, amount, description, reference), each applied to the state left by
the previous one. -/
def applyDeductions (now : Nat) :
    LedgerState → List (String × ℚ × String × Option String) → LedgerState
  | st, [] => st
  | st, d :: ds =>
    applyDeductions now (deductCredits st now d.1 d.2.1 d.2.2.1 d.2.2.2).2 ds

/-- Claim C3: starting from a ledger whose balances are all non-negative,
no sequence of deductions can drive any balance negative, and a single
deduction exceeding the current balance is rejected with the state left
unchanged. -/
theorem claim_C3 (now : Nat) (st : LedgerState)
    (ds : List (String × ℚ × String × Option String))
    (hinv : ∀ hb ∈ st.hosts, 0 ≤ hb.balance) :
    (∀ hb ∈ (applyDeductions now st ds).hosts, 0 ≤ hb.balance)
  ∧ (∀ host amount descr ref hb, findHost st host = some hb →
      hb.balance < amount →
      (deductCredits st now host amount descr ref).1.success = false ∧
      (deductCredits st now host amount descr ref).2 = st) := by
  constructor
  · induction ds generalizing st with
    | nil => exact hinv
    | cons d ds ih =>
      exact ih _ (deduct_preserves_nonneg st now d.1 d.2.1 d.2.2.1 d.2.2.2 hinv)
  · intro host amount descr ref hb hfind hlt
    exact deductCredits_insufficient st now host amount descr ref hb hfind hlt

/-- Witness for C3: host `h` with balance 5 under deductions of 2 then 10;
the 10 is rejected (insufficient) and every balance stays non-negative. -/
theorem claim_C3_witness :
    (∀ hb ∈ (applyDeductions 0 ⟨[⟨"h", 5, 5, 0, true, none, 0⟩], []⟩
        [("h", 2, "usage", none), ("h", 10, "usage", none)]).hosts,
        0 ≤ hb.balance)
  ∧ (deductCredits ⟨[⟨"h", 5, 5, 0, true, none, 0⟩], []⟩ 0 "h" 10 "usage"
      none).1.success = false :=
  have h := claim_C3 0 ⟨[⟨"h", 5, 5, 0, true, none, 0⟩], []⟩
    [("h", 2, "usage", none), ("h", 10, "usage", none)] (by decide)
  ⟨h.1, (h.2 "h" 10 "usage" none ⟨"h", 5, 5, 0, true, none, 0⟩ (by decide)
    (by decide)).1⟩

/-- Claim C2: `deductCredits` fails with no state change on non-positive
amount, unknown host, or insufficient balance at deduction time; on success
the balance drops by the amount, `totalCreditsUsed` rises by it,
`lastUpdated` is set to the current time, and exactly one `deduct`
transaction is appended whose `amount` is the negated deduction and whose
`balanceAfter` is the post-deduction balance. -/
theorem claim_C2 (st : LedgerState) (now : Nat) (host : String) (amount : ℚ)
    (descr : String) (ref : Option String) :
    (amount ≤ 0 →
      (deductCredits st now host amount descr ref).1.success = false ∧
      (deductCredits st now host amount descr ref).2 = st)
  ∧ (findHost st host = none →
      (deductCredits st now host amount descr ref).1.success = false ∧
      (deductCredits st now host amount descr ref).2 = st)
  ∧ (∀ hb, findHost st host = some hb → hb.balance < amount →
      (deductCredits st now host amount descr ref).1.success = false ∧
      (deductCredits st now host amount descr ref).2 = st)
  ∧ ((deductCredits st now host amount descr ref).1.success = true →
      ∃ hb, findHost st host = some hb ∧ amount ≤ hb.balance ∧
        (deductCredits st now host amount descr ref).1.balance =
          some (hb.balance - amount) ∧
        (deductCredits st now host amount descr ref).1.deducted = some amount ∧
        findHost (deductCredits st now host amount descr ref).2 host =
          some { hb with balance := hb.balance - amount
                         totalCreditsUsed := hb.totalCreditsUsed + amount
                         lastUpdated := now } ∧
        (deductCredits st now host amount descr ref).2.transactions =
          st.transactions ++
            [{ host := host, timestamp := now, amount := -amount
               ttype := "deduct", balanceAfter := hb.balance - amount
               description := descr, reference := ref
               performedBy := none }]) := by
  refine ⟨deductCredits_nonpos st now host amount descr ref,
    deductCredits_noHost st now host amount descr ref,
    fun hb hfind hlt =>
      deductCredits_insufficient st now host amount descr ref hb hfind hlt,
    ?_⟩
  intro hsucc
  obtain ⟨hh, hpos, hb, hfind, hle⟩ :=
    deductCredits_success_inv st now host amount descr ref hsucc
  refine ⟨hb, hfind, hle, ?_, ?_, ?_, ?_⟩ <;>
    rw [deductCredits_success_eq st now host amount descr ref hb hfind hh
      hpos hle]
  exact find?_setHost st.hosts host hb _ hfind rfl

/-- Witness for C2: host `a.com` with balance 10, deduction of 3 at time 7
succeeds with balance 7, `totalCreditsUsed` 3, and a single `deduct`
transaction of amount -3 and `balanceAfter` 7. -/
theorem claim_C2_witness :
    (deductCredits ⟨[⟨"a.com", 10, 10, 0, true, none, 0⟩], []⟩ 7 "a.com" 3
        "usage" none).1.success = true
  ∧ ∃ hb, findHost ⟨[⟨"a.com", 10, 10, 0, true, none, 0⟩], []⟩ "a.com" =
        some hb ∧ (3 : ℚ) ≤ hb.balance ∧
      (deductCredits ⟨[⟨"a.com", 10, 10, 0, true, none, 0⟩], []⟩ 7 "a.com" 3
        "usage" none).1.balance = some (hb.balance - 3) ∧
      (deductCredits ⟨[⟨"a.com", 10, 10, 0, true, none, 0⟩], []⟩ 7 "a.com" 3
        "usage" none).1.deducted = some 3 ∧
      findHost (deductCredits ⟨[⟨"a.com", 10, 10, 0, true, none, 0⟩], []⟩ 7
          "a.com" 3 "usage" none).2 "a.com" =
        some { hb with balance := hb.balance - 3
                       totalCreditsUsed := hb.totalCreditsUsed + 3
                       lastUpdated := 7 } ∧
      (deductCredits ⟨[⟨"a.com", 10, 10, 0, true, none, 0⟩], []⟩ 7 "a.com" 3
          "usage" none).2.transactions =
        [] ++ [{ host := "a.com", timestamp := 7, amount := -3
                 ttype := "deduct", balanceAfter := (10 : ℚ) - 3
                 description := "usage", reference := none
                 performedBy := none }] :=
  ⟨by decide,
    by
      have h := (claim_C2 ⟨[⟨"a.com", 10, 10, 0, true, none, 0⟩], []⟩ 7
        "a.com" 3 "usage" none).2.2.2 (by decide)
      obtain ⟨hb, hfind, hle, h1, h2, h3, h4⟩ := h
      have hbe : hb = ⟨"a.com", 10, 10, 0, true, none, 0⟩ := by
        have : findHost ⟨[⟨"a.com", 10, 10, 0, true, none, 0⟩], []⟩ "a.com" =
            some ⟨"a.com", 10, 10, 0, true, none, 0⟩ := by decide
        rw [this] at hfind
        exact (Option.some_inj.mp hfind).symm
      subst hbe
      exact ⟨_, hfind, hle, h1, h2, h3, h4⟩⟩

/-- Counterexample for C6: with keyspace `["analyticsFoo", "abc"]`, deleting
by pattern `"*"` removes both keys, including the analytics-namespace key —
the pattern branch applies no namespace filter. -/
theorem claim_C6_counterexample :
    cacheDeleteHandler none (some "*") ["analyticsFoo", "abc"] =
      (.deletedByPattern 2, []) := by
  decide

/-- Claim C6 as amended: the bulk-clear branch (no key, no pattern) filters
out every key prefixed `analytics` or `session` before deleting, so such
keys always survive it; the pattern branch deletes every key matching the
pattern with no namespace filter, including analytics/session keys. -/
theorem claim_C6 (ks : List String) (k : String) :
    (k ∈ ks →
      (jsStartsWith k "analytics" = true ∨ jsStartsWith k "session" = true) →
      k ∈ (cacheDeleteHandler none none ks).2)
  ∧ (∀ p, p ≠ "" → k ∈ ks → keyMatches p k = true →
      k ∉ (cacheDeleteHandler none (some p) ks).2) := by
  constructor
  · intro hk hpre
    have hsys : (jsStartsWith k "analytics" || jsStartsWith k "session") = true := by
      rcases hpre with h | h <;> simp [h]
    simp only [cacheDeleteHandler, jsTruthy]
    split
    · exact List.mem_filter.mpr ⟨hk, hsys⟩
    · exact hk
  · intro p hp hk hmatch
    simp only [cacheDeleteHandler, jsTruthy, if_neg hp]
    have hmemf : k ∈ ks.filter (fun x => keyMatches p x) :=
      List.mem_filter.mpr ⟨hk, hmatch⟩
    have hlen : 0 < (ks.filter (fun x => keyMatches p x)).length :=
      List.length_pos_of_mem hmemf
    rw [if_pos hlen]
    intro hmem
    have := (List.mem_filter.mp hmem).2
    simp [hmatch] at this

/-- Witness for C6: in keyspace `["analyticsA", "x"]` the flush branch keeps
`analyticsA`, while pattern `"*"` deletes `x`. -/
theorem claim_C6_witness :
    "analyticsA" ∈ (cacheDeleteHandler none none ["analyticsA", "x"]).2
  ∧ "x" ∉ (cacheDeleteHandler none (some "*") ["analyticsA", "x"]).2 :=
  ⟨(claim_C6 ["analyticsA", "x"] "analyticsA").1 (by decide)
      (Or.inl (by decide)),
   (claim_C6 ["analyticsA", "x"] "x").2 "*" (by decide) (by decide)
      (by decide)⟩

theorem batchHandler_congr (md5hex : String → String) (now : Nat)
    (recordOk : Bool) (upstream : Nat → UpstreamOutcome) (defaultTTL : Nat)
    (st : SysState) (b1 b2 : BatchBody) (h1 h2 : Option String)
    (ehost : batchHost b1.host h1 = batchHost b2.host h2)
    (etexts : b1.texts = b2.texts) (emodel : b1.model = b2.model) :
    batchHandler md5hex now recordOk upstream defaultTTL st b1 h1 =
    batchHandler md5hex now recordOk upstream defaultTTL st b2 h2 := by
  unfold batchHandler
  rw [ehost, etexts, emodel]

/-- Claim C10: a batch request whose body omits `host` is not rejected with
400 (given a valid `texts` array); the handler behaves exactly as if the
body had carried the request's Host header, or the string `default` when
that header is absent or empty. -/
theorem claim_C10 (md5hex : String → String) (now : Nat) (recordOk : Bool)
    (upstream : Nat → UpstreamOutcome) (defaultTTL : Nat) (st : SysState)
    (body : BatchBody) (headerHost : Option String) (texts : List String)
    (htexts : body.texts = some texts) (hne : texts ≠ [])
    (hle : texts.length ≤ 100) (hnohost : body.host = none) :
    (∀ e, (batchHandler md5hex now recordOk upstream defaultTTL st body
        headerHost).response ≠ .badRequest e)
  ∧ (∀ hh, headerHost = some hh → hh ≠ "" →
      batchHandler md5hex now recordOk upstream defaultTTL st body
          headerHost =
        batchHandler md5hex now recordOk upstream defaultTTL st
          { body with host := some hh } none)
  ∧ ((headerHost = none ∨ headerHost = some "") →
      batchHandler md5hex now recordOk upstream defaultTTL st body
          headerHost =
        batchHandler md5hex now recordOk upstream defaultTTL st
          { body with host := some "default" } none) := by
  refine ⟨?_, ?_, ?_⟩
  · intro e
    unfold batchHandler
    rw [htexts]
    have h0 : ¬(texts.length = 0) := by
      simpa [List.length_eq_zero] using hne
    have h100 : ¬(texts.length > 100) := by omega
    simp only [if_neg h0, if_neg h100]
    split <;> simp
    split <;> simp
  · intro hh hhead hne2
    refine batchHandler_congr _ _ _ _ _ _ _ _ _ _ ?_ rfl rfl
    rw [hnohost, hhead]
    simp [batchHost, jsTruthy, hne2]
  · intro hhead
    refine batchHandler_congr _ _ _ _ _ _ _ _ _ _ ?_ rfl rfl
    rcases hhead with h | h <;> rw [hnohost, h] <;>
      simp [batchHost, jsTruthy]

/-- Witness for C10: a one-item batch with no body host and header host
`hdr.example` is not a 400 and behaves as if `host = "hdr.example"` had been
supplied. -/
theorem claim_C10_witness :
    (batchHandler id 0 true (fun _ => .netError "x") 86400 ⟨⟨[], []⟩, [], []⟩
        ⟨some ["hi"], none, none⟩ (some "hdr.example")).response ≠
      .badRequest "Array of texts is required"
  ∧ batchHandler id 0 true (fun _ => .netError "x") 86400 ⟨⟨[], []⟩, [], []⟩
        ⟨some ["hi"], none, none⟩ (some "hdr.example") =
      batchHandler id 0 true (fun _ => .netError "x") 86400 ⟨⟨[], []⟩, [], []⟩
        ⟨some ["hi"], some "hdr.example", none⟩ none :=
  have h := claim_C10 id 0 true (fun _ => .netError "x") 86400
    ⟨⟨[], []⟩, [], []⟩ ⟨some ["hi"], none, none⟩ (some "hdr.example") ["hi"]
    rfl (by decide) (by decide) rfl
  ⟨h.1 "Array of texts is required",
   h.2.1 "hdr.example" rfl (by decide)⟩

/-- Claim C4: on a cache hit the fee is exactly 10% of the cached result's
`cost.totalCost`; the response is the cached result with `cached = true` and
`balanceRemaining` equal to the pre-check balance minus that fee, returned
regardless of whether the deduction succeeds; when the fee is 0 the
deduction call is skipped and the ledger is untouched; when the fee is
positive the ledger is exactly the result of deducting that fee. -/
theorem claim_C4 (md5hex : String → String) (now : Nat) (recordOk : Bool)
    (upstream : UpstreamOutcome) (defaultTTL : Nat) (st : SysState)
    (body : AnalyzeBody) (text host model : String) (entry : FinalResult)
    (b : ℚ)
    (hmodel : body.model.getD DEFAULT_MODEL = model)
    (htext : jsTruthy body.text = some text)
    (hhost : jsTruthy body.host = some host)
    (hsuff : (checkBalance st.ledger host
      (estimatedCostOf text model)).sufficient = true)
    (hbal : (checkBalance st.ledger host
      (estimatedCostOf text model)).balance = some b)
    (hhit : cacheGet st.cache
      (generateCacheKey md5hex (cleanString text) model) = some entry) :
    ((analyzeHandler md5hex now recordOk upstream defaultTTL st
        body).response =
      .ok entry true (b - entry.cost.totalCost * 0.1))
  ∧ (entry.cost.totalCost * 0.1 = 0 →
      (analyzeHandler md5hex now recordOk upstream defaultTTL st
        body).state.ledger = st.ledger)
  ∧ (entry.cost.totalCost * 0.1 > 0 →
      (analyzeHandler md5hex now recordOk upstream defaultTTL st
        body).state.ledger =
        (deductCredits st.ledger now host (entry.cost.totalCost * 0.1)
          ("Cache hit for sentiment analysis (" ++ model ++ ")")
          (some (generateCacheKey md5hex (cleanString text) model))).2) := by
  unfold analyzeHandler
  rw [htext, hhost, hmodel]
  simp only [hsuff, Bool.true_eq_false, if_false, hhit, hbal, Option.getD_some]
  refine ⟨?_, ?_, ?_⟩
  · by_cases hc : entry.cost.totalCost * 0.1 = 0 <;> simp [hc]
  · intro hc
    simp [hc]
  · intro hc
    rw [if_pos hc]

set_option maxRecDepth 10000 in
/-- Witness for C4: host `h` with balance 1 and a cached entry of total cost
0.02 under the default model; the cache hit returns the entry with
`balanceRemaining = 1 - 0.002`. -/
theorem claim_C4_witness :
    (analyzeHandler id 0 true (.netError "x") 86400
      ⟨⟨[⟨"h", 1, 1, 0, true, none, 0⟩], []⟩,
        [("hello|gpt-3.5-turbo-0125",
          (⟨⟨some "en", some ⟨1/2, "positive"⟩, some ⟨0, []⟩, some ["others"]⟩,
            ⟨10, 10, 20⟩,
            ⟨0.005, 0.015, 0.02, 0.00625, 0.01875, 0.025, "USD"⟩,
            ⟨"gpt-3.5-turbo-0125", 0, some "h", none⟩⟩, 3600))], []⟩
      ⟨some "hello", some "h", none⟩).response =
    .ok
      ⟨⟨some "en", some ⟨1/2, "positive"⟩, some ⟨0, []⟩, some ["others"]⟩,
        ⟨10, 10, 20⟩,
        ⟨0.005, 0.015, 0.02, 0.00625, 0.01875, 0.025, "USD"⟩,
        ⟨"gpt-3.5-turbo-0125", 0, some "h", none⟩⟩ true
      (1 - (⟨⟨some "en", some ⟨1/2, "positive"⟩, some ⟨0, []⟩,
          some ["others"]⟩, ⟨10, 10, 20⟩,
          ⟨0.005, 0.015, 0.02, 0.00625, 0.01875, 0.025, "USD"⟩,
          ⟨"gpt-3.5-turbo-0125", 0, some "h", none⟩⟩ :
        FinalResult).cost.totalCost * 0.1) :=
  (claim_C4 id 0 true (.netError "x") 86400
    ⟨⟨[⟨"h", 1, 1, 0, true, none, 0⟩], []⟩,
      [("hello|gpt-3.5-turbo-0125",
        (⟨⟨some "en", some ⟨1/2, "positive"⟩, some ⟨0, []⟩, some ["others"]⟩,
          ⟨10, 10, 20⟩,
          ⟨0.005, 0.015, 0.02, 0.00625, 0.01875, 0.025, "USD"⟩,
          ⟨"gpt-3.5-turbo-0125", 0, some "h", none⟩⟩, 3600))], []⟩
    ⟨some "hello", some "h", none⟩ "hello" "h" "gpt-3.5-turbo-0125"
    ⟨⟨some "en", some ⟨1/2, "positive"⟩, some ⟨0, []⟩, some ["others"]⟩,
      ⟨10, 10, 20⟩,
      ⟨0.005, 0.015, 0.02, 0.00625, 0.01875, 0.025, "USD"⟩,
      ⟨"gpt-3.5-turbo-0125", 0, some "h", none⟩⟩ 1
    rfl (by decide) (by decide) (by with_unfolding_all decide)
    (by with_unfolding_all decide) (by with_unfolding_all decide)).1

/-! ## Analytics immateriality (for C7) -/

theorem processText_analytics_immaterial (md5hex : String → String)
    (now : Nat) (r1 r2 : Bool) (upstream : UpstreamOutcome) (defaultTTL : Nat)
    (st1 st2 : SysState) (text model host : String)
    (hl : st1.ledger = st2.ledger) (hc : st1.cache = st2.cache) :
    (processText md5hex now r1 upstream defaultTTL st1 text model host).1 =
      (processText md5hex now r2 upstream defaultTTL st2 text model host).1
  ∧ (processText md5hex now r1 upstream defaultTTL st1 text model
      host).2.ledger =
      (processText md5hex now r2 upstream defaultTTL st2 text model
        host).2.ledger
  ∧ (processText md5hex now r1 upstream defaultTTL st1 text model
      host).2.cache =
      (processText md5hex now r2 upstream defaultTTL st2 text model
        host).2.cache := by
  unfold processText
  rw [hl, hc]
  by_cases hs : (checkBalance st2.ledger host
      (estimatedCostOf text model)).sufficient = false
  · simp [hs, hl, hc]
  · simp only [hs, if_false]
    cases hhit : cacheGet st2.cache
        (generateCacheKey md5hex (cleanString text) model) with
    | some result => simp [hhit, hl, hc]
    | none =>
      simp only [hhit]
      cases upstream with
      | netError details => simp [hl, hc]
      | ok content usage =>
        cases content with
        | failed => simp [hl, hc]
        | parsed result =>
          cases httl : determineTTL defaultTTL result with
          | none => simp [httl, hl, hc]
          | some ttl => simp [httl, hl, hc]

theorem runItems_analytics_immaterial (md5hex : String → String) (now : Nat)
    (r1 r2 : Bool) (upstream : Nat → UpstreamOutcome) (defaultTTL : Nat)
    (model host : String) (texts : List String) :
    ∀ (st1 st2 : SysState) (i : Nat), st1.ledger = st2.ledger →
      st1.cache = st2.cache →
      (runItems md5hex now r1 upstream defaultTTL model host st1 texts i).1 =
        (runItems md5hex now r2 upstream defaultTTL model host st2 texts i).1
    ∧ (runItems md5hex now r1 upstream defaultTTL model host st1 texts
        i).2.ledger =
        (runItems md5hex now r2 upstream defaultTTL model host st2 texts
          i).2.ledger
    ∧ (runItems md5hex now r1 upstream defaultTTL model host st1 texts
        i).2.cache =
        (runItems md5hex now r2 upstream defaultTTL model host st2 texts
          i).2.cache := by
  induction texts with
  | nil => intro st1 st2 i hl hc; exact ⟨rfl, hl, hc⟩
  | cons t ts ih =>
    intro st1 st2 i hl hc
    have hstep := processText_analytics_immaterial md5hex now r1 r2
      (upstream i) defaultTTL st1 st2 t model host hl hc
    have hrest := ih
      (processText md5hex now r1 (upstream i) defaultTTL st1 t model host).2
      (processText md5hex now r2 (upstream i) defaultTTL st2 t model host).2
      (i + 1) hstep.2.1 hstep.2.2
    refine ⟨?_, hrest.2.1, hrest.2.2⟩
    simp only [runItems]
    rw [hstep.1, hrest.1]

theorem batchHandler_analytics_immaterial (md5hex : String → String)
    (now : Nat) (r1 r2 : Bool) (upstream : Nat → UpstreamOutcome)
    (defaultTTL : Nat) (st : SysState) (body : BatchBody)
    (headerHost : Option String) :
    (batchHandler md5hex now r1 upstream defaultTTL st body
      headerHost).response =
    (batchHandler md5hex now r2 upstream defaultTTL st body
      headerHost).response := by
  unfold batchHandler
  cases htexts : body.texts with
  | none => rfl
  | some texts =>
    by_cases h0 : texts.length = 0
    · simp [h0]
    · by_cases h100 : texts.length > 100
      · simp [h0, h100]
      · simp only [h0, h100, if_false, if_true, ite_false]
        have hrun := runItems_analytics_immaterial md5hex now r1 r2 upstream
          defaultTTL (body.model.getD DEFAULT_MODEL)
          (batchHost body.host headerHost) texts st st 0 rfl rfl
        rw [hrun.1]
        cases hft : firstThrown (runItems md5hex now r2 upstream defaultTTL
            (body.model.getD DEFAULT_MODEL) (batchHost body.host headerHost)
            st texts 0).1 with
        | some details => simp [hft]
        | none =>
          cases hsum : calculateBatchSummary (okResults (runItems md5hex now
              r2 upstream defaultTTL (body.model.getD DEFAULT_MODEL)
              (batchHost body.host headerHost) st texts 0).1) with
          | none => simp [hft, hsum]
          | some summary => simp [hft, hsum]

theorem analyzeHandler_analytics_immaterial (md5hex : String → String)
    (now : Nat) (r1 r2 : Bool) (upstream : UpstreamOutcome)
    (defaultTTL : Nat) (st : SysState) (body : AnalyzeBody) :
    (analyzeHandler md5hex now r1 upstream defaultTTL st body).response =
      (analyzeHandler md5hex now r2 upstream defaultTTL st body).response
  ∧ (analyzeHandler md5hex now r1 upstream defaultTTL st body).state.ledger =
      (analyzeHandler md5hex now r2 upstream defaultTTL st body).state.ledger
  ∧ (analyzeHandler md5hex now r1 upstream defaultTTL st body).state.cache =
      (analyzeHandler md5hex now r2 upstream defaultTTL st body).state.cache
  ∧ (analyzeHandler md5hex now r1 upstream defaultTTL st
      body).analyticsAttempted =
      (analyzeHandler md5hex now r2 upstream defaultTTL st
        body).analyticsAttempted := by
  unfold analyzeHandler
  cases jsTruthy body.text with
  | none => exact ⟨rfl, rfl, rfl, rfl⟩
  | some text =>
    cases jsTruthy body.host with
    | none => exact ⟨rfl, rfl, rfl, rfl⟩
    | some host =>
      by_cases hs : (checkBalance st.ledger host
          (estimatedCostOf text (body.model.getD DEFAULT_MODEL))).sufficient
            = false
      · simp [hs]
      · simp only [hs, if_false]
        cases hhit : cacheGet st.cache (generateCacheKey md5hex
            (cleanString text) (body.model.getD DEFAULT_MODEL)) with
        | some result => simp [hhit]
        | none =>
          simp only [hhit]
          cases upstream with
          | netError details => simp
          | ok content usage =>
            cases content with
            | failed => simp
            | parsed result =>
              cases httl : determineTTL defaultTTL result with
              | none => simp [httl]
              | some ttl => simp [httl]

set_option maxRecDepth 10000 in
/-- Counterexample for C7: on a concrete successful cache-hit request the
analytics record attempt is part of the handler's synchronous outcome — the
handler `await`s `updateAnalytics` before responding (app-sentiment.js 218),
so analytics recording is not launched without awaiting its completion. -/
theorem claim_C7_counterexample :
    (analyzeHandler id 0 true (.netError "x") 86400
      ⟨⟨[⟨"h", 1, 1, 0, true, none, 0⟩], []⟩,
        [("hey|gpt-3.5-turbo-0125",
          (⟨⟨some "en", some ⟨1/2, "positive"⟩, some ⟨0, []⟩, some ["others"]⟩,
            ⟨10, 10, 20⟩, ⟨0, 0, 0, 0, 0, 0, "USD"⟩,
            ⟨"gpt-3.5-turbo-0125", 0, some "h", none⟩⟩, 3600))], []⟩
      ⟨some "hey", some "h", none⟩).analyticsAttempted ≠ [] := by
  with_unfolding_all decide

/-- Claim C7 as amended: analytics recording is awaited by the request
handlers (the attempt is part of the synchronous outcome), but a failure
inside `analyticsService.recordRequest` is swallowed — whether the analytics
write succeeds (`recordOk`) has no effect on the HTTP response, the ledger,
the cache, or even the set of attempts, for both /api/analyze and
/api/batch. -/
theorem claim_C7 (md5hex : String → String) (now : Nat)
    (upstream : UpstreamOutcome) (upstreamB : Nat → UpstreamOutcome)
    (defaultTTL : Nat) (st : SysState) (body : AnalyzeBody)
    (bbody : BatchBody) (headerHost : Option String) :
    (analyzeHandler md5hex now true upstream defaultTTL st body).response =
      (analyzeHandler md5hex now false upstream defaultTTL st body).response
  ∧ (analyzeHandler md5hex now true upstream defaultTTL st
      body).state.ledger =
      (analyzeHandler md5hex now false upstream defaultTTL st
        body).state.ledger
  ∧ (analyzeHandler md5hex now true upstream defaultTTL st
      body).state.cache =
      (analyzeHandler md5hex now false upstream defaultTTL st
        body).state.cache
  ∧ (analyzeHandler md5hex now true upstream defaultTTL st
      body).analyticsAttempted =
      (analyzeHandler md5hex now false upstream defaultTTL st
        body).analyticsAttempted
  ∧ (batchHandler md5hex now true upstreamB defaultTTL st bbody
      headerHost).response =
      (batchHandler md5hex now false upstreamB defaultTTL st bbody
        headerHost).response :=
  ⟨(analyzeHandler_analytics_immaterial md5hex now true false upstream
      defaultTTL st body).1,
   (analyzeHandler_analytics_immaterial md5hex now true false upstream
      defaultTTL st body).2.1,
   (analyzeHandler_analytics_immaterial md5hex now true false upstream
      defaultTTL st body).2.2.1,
   (analyzeHandler_analytics_immaterial md5hex now true false upstream
      defaultTTL st body).2.2.2,
   batchHandler_analytics_immaterial md5hex now true false upstreamB
     defaultTTL st bbody headerHost⟩

set_option maxRecDepth 10000 in
/-- Claim C1 (code bug): a POST /api/analyze request whose upstream response
is valid JSON but lacks the `intents` field is charged the full
`totalCost` (a `deduct` BalanceTransaction is created and the balance
drops) and then terminates with a 500: `determineTTL` throws a `TypeError`
after `deductCredits` has already been persisted (app-sentiment.js 276-302),
contradicting the no-charge-on-500 guarantee. -/
theorem claim_C1 :
    ((analyzeHandler id 0 true
        (.ok (.parsed ⟨some "en", none, none, none⟩) ⟨10, 10, 20⟩) 86400
        ⟨⟨[⟨"h", 1, 1, 0, true, none, 0⟩], []⟩, [], []⟩
        ⟨some "hello", some "h", none⟩).response =
      .serverError (.caught ttlTypeErrorDetails))
  ∧ ((analyzeHandler id 0 true
        (.ok (.parsed ⟨some "en", none, none, none⟩) ⟨10, 10, 20⟩) 86400
        ⟨⟨[⟨"h", 1, 1, 0, true, none, 0⟩], []⟩, [], []⟩
        ⟨some "hello", some "h", none⟩).state.ledger.transactions.map
        (fun tx => (tx.ttype, tx.amount)) = [("deduct", -(1/50000 : ℚ))])
  ∧ (findHost (analyzeHandler id 0 true
        (.ok (.parsed ⟨some "en", none, none, none⟩) ⟨10, 10, 20⟩) 86400
        ⟨⟨[⟨"h", 1, 1, 0, true, none, 0⟩], []⟩, [], []⟩
        ⟨some "hello", some "h", none⟩).state.ledger "h" =
      some ⟨"h", 49999/50000, 1, 1/50000, true, none, 0⟩) := by
  refine ⟨?_, ?_, ?_⟩ <;> with_unfolding_all rfl

theorem okResults_length_of_none_thrown (rs : List (Except String ItemOutcome))
    (h : firstThrown rs = none) : (okResults rs).length = rs.length := by
  induction rs with
  | nil => rfl
  | cons r t ih =>
    cases r with
    | error e => simp [firstThrown, List.findSome?] at h
    | ok v =>
      have ht : firstThrown t = none := by
        simpa [firstThrown, List.findSome?] using h
      simp [okResults, List.filterMap] at ih ⊢
      exact ih ht

theorem runItems_length (md5hex : String → String) (now : Nat)
    (recordOk : Bool) (upstream : Nat → UpstreamOutcome) (defaultTTL : Nat)
    (model host : String) (texts : List String) :
    ∀ (st : SysState) (i : Nat),
      (runItems md5hex now recordOk upstream defaultTTL model host st texts
        i).1.length = texts.length := by
  induction texts with
  | nil => intro st i; rfl
  | cons t ts ih => intro st i; simp [runItems, ih]

set_option maxRecDepth 10000 in
/-- Counterexample for C5: a one-item batch whose single upstream call
rejects produces a single 500 response — the upstream failure is not
collected as an `{error, details}` entry in a results array
(`processText` has no try/catch around `callOpenAI`, so the rejection
propagates through `Promise.all` to the batch catch,
app-sentiment.js 357-374, 1469-1470). -/
theorem claim_C5_counterexample :
    (batchHandler id 0 true (fun _ => .netError "connect ECONNREFUSED") 86400
      ⟨⟨[⟨"h", 1, 1, 0, true, none, 0⟩], []⟩, [], []⟩
      ⟨some ["boom"], some "h", none⟩ none).response =
    .serverError "connect ECONNREFUSED" := by
  with_unfolding_all rfl

/-- Claim C5 as amended: per-item insufficient-balance failures are indeed
collected as `{error, details, ...}` entries (never thrown), but the batch
response does not always contain one entry per input text: an upstream
rejection in any single item is not collected — it rejects that item's
promise and the whole batch returns a single 500 with the first rejection's
details — and even when every item completes, a successful result whose
parsed classification lacks `sentiment` or `intents` makes
`calculateBatchSummary` itself throw (app-sentiment.js 1535, 1553) and the
batch again returns a single 500.  Only when no item throws and the summary
computes does the batch return 200 with one entry per input text plus the
summary. -/
theorem claim_C5 :
    (∀ (md5hex : String → String) (now : Nat) (recordOk : Bool)
        (upstream : UpstreamOutcome) (defaultTTL : Nat) (st : SysState)
        (text model host : String),
      (checkBalance st.ledger host (estimatedCostOf text model)).sufficient
          = false →
      (processText md5hex now recordOk upstream defaultTTL st text model
          host).1 =
        .ok (.errorEntry "Payment required"
          (checkBalance st.ledger host (estimatedCostOf text model)).error
          ((checkBalance st.ledger host
            (estimatedCostOf text model)).balance.getD 0)
          (estimatedCostOf text model) (snippet text)))
  ∧ (∀ (md5hex : String → String) (now : Nat) (recordOk : Bool)
        (defaultTTL : Nat) (st : SysState) (text model host d : String),
      (checkBalance st.ledger host (estimatedCostOf text model)).sufficient
          = true →
      cacheGet st.cache (generateCacheKey md5hex (cleanString text) model)
          = none →
      (processText md5hex now recordOk (.netError d) defaultTTL st text
        model host).1 = .error d)
  ∧ (∀ (md5hex : String → String) (now : Nat) (recordOk : Bool)
        (upstream : Nat → UpstreamOutcome) (defaultTTL : Nat)
        (st : SysState) (body : BatchBody) (headerHost : Option String)
        (texts : List String),
      body.texts = some texts → texts ≠ [] → texts.length ≤ 100 →
      (∀ d, firstThrown (runItems md5hex now recordOk upstream defaultTTL
          (body.model.getD DEFAULT_MODEL) (batchHost body.host headerHost)
          st texts 0).1 = some d →
        (batchHandler md5hex now recordOk upstream defaultTTL st body
          headerHost).response = .serverError d)
      ∧ (firstThrown (runItems md5hex now recordOk upstream defaultTTL
          (body.model.getD DEFAULT_MODEL) (batchHost body.host headerHost)
          st texts 0).1 = none →
        ∀ s, calculateBatchSummary (okResults (runItems md5hex now recordOk
            upstream defaultTTL (body.model.getD DEFAULT_MODEL)
            (batchHost body.host headerHost) st texts 0).1) = some s →
          (batchHandler md5hex now recordOk upstream defaultTTL st body
            headerHost).response =
            .ok s (okResults (runItems md5hex now recordOk upstream
              defaultTTL (body.model.getD DEFAULT_MODEL)
              (batchHost body.host headerHost) st texts 0).1)
          ∧ (okResults (runItems md5hex now recordOk upstream defaultTTL
              (body.model.getD DEFAULT_MODEL)
              (batchHost body.host headerHost) st texts 0).1).length =
              texts.length)
      ∧ (firstThrown (runItems md5hex now recordOk upstream defaultTTL
          (body.model.getD DEFAULT_MODEL) (batchHost body.host headerHost)
          st texts 0).1 = none →
        calculateBatchSummary (okResults (runItems md5hex now recordOk
            upstream defaultTTL (body.model.getD DEFAULT_MODEL)
            (batchHost body.host headerHost) st texts 0).1) = none →
        (batchHandler md5hex now recordOk upstream defaultTTL st body
          headerHost).response = .serverError summaryTypeErrorDetails)) := by
  refine ⟨?_, ?_, ?_⟩
  · intro md5hex now recordOk upstream defaultTTL st text model host h
    unfold processText
    simp [h]
  · intro md5hex now recordOk defaultTTL st text model host d hsuff hmiss
    unfold processText
    simp [hsuff, hmiss]
  · intro md5hex now recordOk upstream defaultTTL st body headerHost texts
      htexts hne h100
    have h0 : ¬(texts.length = 0) := by
      simpa [List.length_eq_zero] using hne
    have h100n : ¬(texts.length > 100) := by omega
    refine ⟨?_, ?_, ?_⟩
    · intro d hft
      unfold batchHandler
      rw [htexts]
      simp [h0, h100n, hft]
    · intro hft s hsum
      constructor
      · unfold batchHandler
        rw [htexts]
        simp [h0, h100n, hft, hsum]
      · rw [okResults_length_of_none_thrown _ hft,
          runItems_length]
    · intro hft hsum
      unfold batchHandler
      rw [htexts]
      simp [h0, h100n, hft, hsum]

set_option maxRecDepth 10000 in
/-- Witness for C5: with an empty ledger, a single-item batch for host `h`
collects the insufficient-balance failure as an error entry (no throw) and
returns 200 with one results entry and a summary counting one failed item;
and with host `h` funded and an upstream result carrying intents `["news"]`
but no `sentiment`, the single item completes yet the summary computation
throws, so the batch returns a single 500. -/
theorem claim_C5_witness :
    ((processText id 0 true (.netError "x") 86400 ⟨⟨[], []⟩, [], []⟩ "hi"
        DEFAULT_MODEL "h").1 =
      .ok (.errorEntry "Payment required"
        (checkBalance (⟨⟨[], []⟩, [], []⟩ : SysState).ledger "h"
          (estimatedCostOf "hi" DEFAULT_MODEL)).error
        ((checkBalance (⟨⟨[], []⟩, [], []⟩ : SysState).ledger "h"
          (estimatedCostOf "hi" DEFAULT_MODEL)).balance.getD 0)
        (estimatedCostOf "hi" DEFAULT_MODEL) (snippet "hi")))
  ∧ ((batchHandler id 0 true (fun _ => .netError "x") 86400
        ⟨⟨[], []⟩, [], []⟩ ⟨some ["hi"], some "h", none⟩ none).response =
      .ok ⟨1, 0, 1, 0, 0, 0, 0, 0, 0, 0, 0, 0, [], 0, 1⟩
        (okResults (runItems id 0 true (fun _ => .netError "x") 86400
          ((⟨some ["hi"], some "h", none⟩ : BatchBody).model.getD
            DEFAULT_MODEL)
          (batchHost (⟨some ["hi"], some "h", none⟩ : BatchBody).host none)
          ⟨⟨[], []⟩, [], []⟩ ["hi"] 0).1)
      ∧ (okResults (runItems id 0 true (fun _ => .netError "x") 86400
          ((⟨some ["hi"], some "h", none⟩ : BatchBody).model.getD
            DEFAULT_MODEL)
          (batchHost (⟨some ["hi"], some "h", none⟩ : BatchBody).host none)
          ⟨⟨[], []⟩, [], []⟩ ["hi"] 0).1).length = 1)
  ∧ ((batchHandler id 0 true
        (fun _ => .ok (.parsed ⟨some "en", none, none, some ["news"]⟩)
          ⟨10, 10, 20⟩) 86400 ⟨⟨[⟨"h", 1, 1, 0, true, none, 0⟩], []⟩, [], []⟩
        ⟨some ["hi"], some "h", none⟩ none).response =
      .serverError summaryTypeErrorDetails) :=
  ⟨claim_C5.1 id 0 true (.netError "x") 86400 ⟨⟨[], []⟩, [], []⟩ "hi"
      DEFAULT_MODEL "h" (by decide),
   ((claim_C5.2.2 id 0 true (fun _ => .netError "x") 86400
      ⟨⟨[], []⟩, [], []⟩ ⟨some ["hi"], some "h", none⟩ none ["hi"] rfl
      (by decide) (by decide)).2.1 (by with_unfolding_all rfl)
      ⟨1, 0, 1, 0, 0, 0, 0, 0, 0, 0, 0, 0, [], 0, 1⟩
      (by with_unfolding_all rfl)),
   ((claim_C5.2.2 id 0 true
      (fun _ => .ok (.parsed ⟨some "en", none, none, some ["news"]⟩)
        ⟨10, 10, 20⟩) 86400 ⟨⟨[⟨"h", 1, 1, 0, true, none, 0⟩], []⟩, [], []⟩
      ⟨some ["hi"], some "h", none⟩ none ["hi"] rfl (by decide)
      (by decide)).2.2 (by with_unfolding_all rfl)
      (by with_unfolding_all rfl))⟩
